import Mathlib

/-!
Verification of the CSV bulk-load module (`database.py`) of the
Predictive-Maintenance workshop repository.

The module is embedded shallowly:

* a pandas `DataFrame` of CSV data is a list of string column labels plus
  rows of string cells;
* the pandas parsers `pd.to_datetime(_, errors="coerce", utc=True)` and
  `pd.to_numeric(_, errors="coerce")` are environment functions, taken as
  parameters `pt pn : String → Option Int` (only their "parse or null"
  shape matters to the program logic);
* the SQLAlchemy session is explicit state (`Session`): `bulk_insert_mappings`
  appends to a pending buffer, `commit` flushes it to the committed list;
* Python exceptions become `Except LoadError`; a run of the loader returns
  the `Except` outcome together with the final session state, so that rows
  committed before a raised error remain visible, as in the real program.
-/

/-- Coerced cell value as it appears in one dict produced by `_coerce_rows`:
the `trait` column is untouched, `axis_*` cells are numeric-or-null,
`recorded_at` is timestamp-or-null. -/
inductive Value where
  | str (s : String)
  | num (x : Option Int)
  | time (t : Option Int)
deriving DecidableEq, Repr

/-- One dict of the list returned by `_coerce_rows` (`to_dict(orient="records")`):
an ordered association list from column label to coerced value. -/
abbrev RowRecord := List (String × Value)

/-- Shallow embedding of a pandas DataFrame holding CSV data: column labels
plus rows of cells.  Labels are assumed unique (pandas mangles duplicate
CSV headers on read). -/
structure DataFrame where
  cols : List String
  rows : List (List String)
deriving DecidableEq, Repr

/-- A CSV file: the header line and the data rows. -/
structure CSV where
  header : List String
  data : List (List String)
deriving DecidableEq, Repr

/-- Errors raised by the module: the `ValueError` of `_normalize_columns`
(carrying the sorted list of missing columns interpolated into its message)
and the `ValueError` of `get_database_url`. -/
inductive LoadError where
  | missingColumns (cols : List String)
  | configError
deriving DecidableEq, Repr

/-- The `renamed` dict of `_normalize_columns`: external CSV header names to
database column names (`Trait`, `Time`, and `Axis #1`..`Axis #14`). -/
def renameMap : List (String × String) :=
  [("Trait", "trait"), ("Time", "recorded_at")] ++
    (List.range 14).map (fun i =>
      ("Axis #" ++ toString (i + 1), "axis_" ++ toString (i + 1)))

/-- Renaming of one column label by `df.rename(columns=renamed)`: mapped if it
is a key of the dict, unchanged otherwise. -/
def renameCol (c : String) : String :=
  match renameMap.lookup c with
  | some v => v
  | none => c

/-- The `ordered_columns` list of `_normalize_columns`:
`["trait"] + [f"axis_{i}" for i in range(1, 15)] + ["recorded_at"]`. -/
def orderedColumns : List String :=
  "trait" :: ((List.range 14).map (fun i => "axis_" ++ toString (i + 1)) ++ ["recorded_at"])

/-- External CSV header names the spec requires: `Trait`, `Axis #1`..`Axis #14`,
`Time`, listed in the order matching `orderedColumns`. -/
def csvRequiredColumns : List String :=
  "Trait" :: ((List.range 14).map (fun i => "Axis #" ++ toString (i + 1)) ++ ["Time"])

/-- Index of the first occurrence of a label in a label list (pandas column
lookup; labels are unique in well-formed frames). -/
def firstIdx (a : String) : List String → Option Nat
  | [] => none
  | b :: bs => if b = a then some 0 else (firstIdx a bs).map (· + 1)

/-- Cell of a row under a column label, given the frame's label list
(missing label yields the empty cell; the program only selects labels it
has checked to be present). -/
def getCellIdx (cols : List String) (a : String) (r : List String) : String :=
  match firstIdx a cols with
  | some k => r.getD k ""
  | none => ""

/-- Row projection of `df[ordered_columns]`: pick, for each requested label,
the row's cell under that label. -/
def selectRow (cols names : List String) (r : List String) : List String :=
  names.map (fun n => getCellIdx cols n r)

/-- Column selection `df[names]`: keeps the requested labels, in the
requested order, reading each row by label. -/
def selectDF (df : DataFrame) (names : List String) : DataFrame :=
  ⟨names, df.rows.map (selectRow df.cols names)⟩

/-- The frame after `df.rename(columns=renamed)`: labels renamed in place,
rows untouched. -/
def renameDF (df : DataFrame) : DataFrame :=
  ⟨df.cols.map renameCol, df.rows⟩

/-- Lexicographic comparison of char lists by code point, the order Python's
`sorted` uses on `str` values. -/
def charListLt : List Char → List Char → Bool
  | [], [] => false
  | [], _ :: _ => true
  | _ :: _, [] => false
  | a :: as, b :: bs => if a < b then true else if b < a then false else charListLt as bs

/-- Lexicographic string comparison by code point. -/
def strLt (a b : String) : Bool := charListLt a.data b.data

/-- Stable insertion of a string into a sorted list (ascending). -/
def insertSorted (a : String) : List String → List String
  | [] => [a]
  | b :: bs => if strLt b a then b :: insertSorted a bs else a :: b :: bs

/-- Python's `sorted` on a list of strings, as insertion sort. -/
def sortStr : List String → List String
  | [] => []
  | a :: as => insertSorted a (sortStr as)

/-- Embedding of `_normalize_columns`: rename the columns, compute the
missing required columns, raise `ValueError` listing them sorted if any,
otherwise return `df[ordered_columns]`. -/
def normalize_columns (df : DataFrame) : Except LoadError DataFrame :=
  let renamed := renameDF df
  let missing := orderedColumns.filter (fun c => ¬ c ∈ renamed.cols)
  if missing.isEmpty then .ok (selectDF renamed orderedColumns)
  else .error (.missingColumns (sortStr missing))

/-- Coercion of one cell of `_coerce_rows`, by column: `recorded_at` through
`pd.to_datetime(errors="coerce", utc=True)`, `axis_1..axis_14` through
`pd.to_numeric(errors="coerce")`, anything else (the `trait` column)
untouched; `NaN`/`NaT` then become `None` via `df.where(pd.notnull(df), None)`,
which the `Option` result already is. -/
def coerceCell (pt pn : String → Option Int) (col : String) (c : String) : Value :=
  if col = "recorded_at" then .time (pt c)
  else if col ∈ (List.range 14).map (fun i => "axis_" ++ toString (i + 1)) then .num (pn c)
  else .str c

/-- One dict of `to_dict(orient="records")`: column labels paired with the
coerced cells of one row. -/
def coerceRow (pt pn : String → Option Int) : List String → List String → RowRecord
  | c :: cs, x :: xs => (c, coerceCell pt pn c x) :: coerceRow pt pn cs xs
  | _, _ => []

/-- Embedding of `_coerce_rows`: each row of the normalized frame becomes one
dict; no row is dropped, added or reordered. -/
def coerceRows (pt pn : String → Option Int) (df : DataFrame) : List RowRecord :=
  df.rows.map (coerceRow pt pn df.cols)

/-- The SQLAlchemy session state: rows buffered by `bulk_insert_mappings`,
rows made durable by `commit`, and call counters for both operations. -/
structure Session where
  committed : List RowRecord
  pending : List RowRecord
  commits : Nat
  inserts : Nat
deriving DecidableEq, Repr

/-- Fresh session at the start of `insert_csv_to_database`. -/
def emptySession : Session := ⟨[], [], 0, 0⟩

/-- Chunking of the data rows by `pd.read_csv(csv_path, chunksize=chunk_size)`:
consecutive windows of at most `n` rows (`n = 0`, which pandas rejects,
yields no chunks). -/
def chunksOf (n : Nat) (xs : List (List String)) : List (List (List String)) :=
  if h : xs = [] ∨ n = 0 then []
  else xs.take n :: chunksOf n (xs.drop n)
termination_by xs.length
decreasing_by
  push_neg at h
  have hx : 0 < xs.length := List.length_pos.mpr h.1
  have hn : 0 < n := Nat.pos_of_ne_zero h.2
  simp [List.length_drop]
  omega

/-- The chunk iterator of `pd.read_csv(csv_path, chunksize=chunk_size)`: each
chunk is a frame with the file's header as columns. -/
def readCSVChunks (csv : CSV) (n : Nat) : List DataFrame :=
  (chunksOf n csv.data).map (fun rs => ⟨csv.header, rs⟩)

/-- The chunk loop of `insert_csv_to_database`: for each chunk, normalize,
coerce, skip if no rows, otherwise `bulk_insert_mappings` then `commit` and
add the row count; a raised error stops the loop, keeping the session state
reached so far (rows committed before the failure stay committed). -/
def processChunks (pt pn : String → Option Int) :
    List DataFrame → Session → Nat → (Except LoadError Nat) × Session
  | [], s, total => (.ok total, s)
  | df :: rest, s, total =>
    match normalize_columns df with
    | .error e => (.error e, s)
    | .ok normalized =>
      let rows := coerceRows pt pn normalized
      if rows.isEmpty then processChunks pt pn rest s total
      else
        let s1 : Session :=
          { s with pending := s.pending ++ rows, inserts := s.inserts + 1 }
        let s2 : Session :=
          { s1 with committed := s1.committed ++ s1.pending, pending := [],
                    commits := s1.commits + 1 }
        processChunks pt pn rest s2 (total + rows.length)

/-- Whitespace test of Python's `str.strip()` (the characters relevant to
connection strings). -/
def isSpaceChar (c : Char) : Bool := c = ' ' || c = '\t' || c = '\n' || c = '\r'

/-- Python's `str.strip()`: drop leading and trailing whitespace. -/
def pyStrip (s : String) : String :=
  ⟨((s.data.dropWhile isSpaceChar).reverse.dropWhile isSpaceChar).reverse⟩

/-- Embedding of `get_database_url`: `os.getenv("NEON_DATABASE_URL", "").strip()`,
raising `ValueError` when the result is empty.  The environment variable is
the parameter `env` (`none` = unset). -/
def get_database_url (env : Option String) : Except LoadError String :=
  let db_url := pyStrip (env.getD "")
  if db_url.isEmpty then .error .configError else .ok db_url

/-- Python truthiness test `if not db_url` on an `str | None` argument:
true for `None` and for the empty string. -/
def isFalsy : Option String → Bool
  | none => true
  | some s => s.isEmpty

/-- Resolution of the connection string at the top of both public functions:
`if not db_url: db_url = get_database_url()`. -/
def resolveDbUrl (env : Option String) (db_url : Option String) : Except LoadError String :=
  if isFalsy db_url then get_database_url env else .ok (db_url.getD "")

/-- Embedding of `insert_csv_to_database`: resolve the connection string
(config error aborts before any chunk is read), then run the chunk loop over
the file read in windows of `chunk_size` rows, returning the total and the
final session state. -/
def insert_csv_to_database (env : Option String) (pt pn : String → Option Int)
    (csv : CSV) (db_url : Option String) (chunk_size : Nat) :
    (Except LoadError Nat) × Session :=
  match resolveDbUrl env db_url with
  | .error e => (.error e, emptySession)
  | .ok _ => processChunks pt pn (readCSVChunks csv chunk_size) emptySession 0

/-- Embedding of `get_data_from_database`: resolve the connection string the
same way, then return every stored row. -/
def get_data_from_database (env : Option String) (stored : List RowRecord)
    (db_url : Option String) : Except LoadError (List RowRecord) :=
  match resolveDbUrl env db_url with
  | .error e => .error e
  | .ok _ => .ok stored

/-- Modelled from the spec (Design Notes): the storage layer's server-side
`now()` default for `recorded_at` applies only when the field is entirely
absent from the insert payload, not when present-but-null; a present null is
stored as null. -/
def storedRecordedAt (now : Int) (rec : RowRecord) : Option Int :=
  match rec.lookup "recorded_at" with
  | none => some now
  | some (.time t) => t
  | some (.str _) => none
  | some (.num _) => none

/-- The frame `_normalize_columns` returns when validation passes. -/
def normalizedOf (df : DataFrame) : DataFrame :=
  selectDF (renameDF df) orderedColumns

/-- The dict the loader builds for one data row of the file: select the
required cells by (renamed) header label, then coerce them. -/
def fileRowRecord (pt pn : String → Option Int) (header : List String)
    (r : List String) : RowRecord :=
  coerceRow pt pn orderedColumns (selectRow (header.map renameCol) orderedColumns r)

/-- Number of chunks of the file that are nonempty (each triggers one
`bulk_insert_mappings` and one `commit`). -/
def nonemptyChunkCount (csv : CSV) (n : Nat) : Nat :=
  ((chunksOf n csv.data).filter (fun rs => !rs.isEmpty)).length

/-! ### Helper lemmas -/

lemma mem_insertSorted (c a : String) : ∀ (l : List String),
    c ∈ insertSorted a l ↔ c = a ∨ c ∈ l := by
  intro l
  induction l with
  | nil => simp [insertSorted]
  | cons b bs ih =>
    cases hba : strLt b a with
    | true =>
      simp [insertSorted, hba, ih]
      tauto
    | false => simp [insertSorted, hba]

lemma mem_sortStr (c : String) : ∀ (l : List String), c ∈ sortStr l ↔ c ∈ l := by
  intro l
  induction l with
  | nil => simp [sortStr]
  | cons a as ih => simp [sortStr, mem_insertSorted, ih]

lemma firstIdx_map (f : String → String) (a : String) : ∀ (l : List String),
    a ∈ l → (l.map f).Nodup → firstIdx (f a) (l.map f) = firstIdx a l := by
  intro l
  induction l with
  | nil => simp
  | cons b bs ih =>
    intro ha hnd
    by_cases hba : f b = f a
    · have hab : b = a := by
        rcases List.mem_cons.mp ha with h | h
        · exact h.symm
        · exfalso
          have hm : f a ∈ bs.map f := List.mem_map_of_mem f h
          rw [← hba] at hm
          exact (List.nodup_cons.mp hnd).1 hm
      subst hab
      simp [firstIdx]
    · have hba' : b ≠ a := fun h => hba (congrArg f h)
      have ha' : a ∈ bs := by
        rcases List.mem_cons.mp ha with h | h
        · exact absurd h.symm hba'
        · exact h
      simp only [List.map_cons, firstIdx, hba, hba', if_neg, ite_false]
      rw [ih ha' (List.nodup_cons.mp hnd).2]

lemma getD_mem_of_lt {l : List String} {j : Nat} (hj : j < l.length) (d : String) :
    l.getD j d ∈ l := by
  rw [List.getD_eq_getElem l d hj]
  exact List.getElem_mem hj

lemma firstIdx_getD_of_nodup : ∀ (l : List String), l.Nodup →
    ∀ j, j < l.length → firstIdx (l.getD j "") l = some j := by
  intro l
  induction l with
  | nil => simp
  | cons b bs ih =>
    intro hnd j hj
    cases j with
    | zero => simp [firstIdx]
    | succ j =>
      have hj' : j < bs.length := by simpa using hj
      have hmem : bs.getD j "" ∈ bs := getD_mem_of_lt hj' ""
      have hne : b ≠ bs.getD j "" := by
        intro h
        rw [h] at hnd
        exact (List.nodup_cons.mp hnd).1 hmem
      simp only [List.getD_cons_succ, firstIdx, hne, ite_false, if_neg]
      rw [ih (List.nodup_cons.mp hnd).2 j hj']
      rfl

lemma selectRow_getD (cols names : List String) (r : List String) :
    ∀ j, j < names.length →
      (selectRow cols names r).getD j "" = getCellIdx cols (names.getD j "") r := by
  induction names with
  | nil => simp
  | cons n ns ih =>
    intro j hj
    cases j with
    | zero => simp [selectRow]
    | succ j =>
      have hj' : j < ns.length := by simpa using hj
      simpa [selectRow] using ih j hj'

lemma selectRow_length (cols names : List String) (r : List String) :
    (selectRow cols names r).length = names.length := by
  simp [selectRow]

lemma coerceRow_length (pt pn : String → Option Int) : ∀ (cols r : List String),
    (coerceRow pt pn cols r).length = min cols.length r.length := by
  intro cols
  induction cols with
  | nil => intro r; cases r <;> simp [coerceRow]
  | cons c cs ih =>
    intro r
    cases r with
    | nil => simp [coerceRow]
    | cons x xs => simp [coerceRow, ih, Nat.succ_min_succ]

lemma coerceRow_keys (pt pn : String → Option Int) : ∀ (cols r : List String),
    r.length = cols.length → (coerceRow pt pn cols r).map Prod.fst = cols := by
  intro cols
  induction cols with
  | nil => intro r h; cases r <;> simp_all [coerceRow]
  | cons c cs ih =>
    intro r h
    cases r with
    | nil => simp at h
    | cons x xs =>
      simp only [List.length_cons, Nat.succ_inj] at h
      simp [coerceRow, ih xs h]

lemma coerceRow_getD (pt pn : String → Option Int) : ∀ (cols r : List String) (j : Nat),
    j < cols.length → j < r.length →
    (coerceRow pt pn cols r).getD j ("", .str "") =
      (cols.getD j "", coerceCell pt pn (cols.getD j "") (r.getD j "")) := by
  intro cols
  induction cols with
  | nil => simp
  | cons c cs ih =>
    intro r j hjc hjr
    cases r with
    | nil => simp at hjr
    | cons x xs =>
      cases j with
      | zero => simp [coerceRow]
      | succ j =>
        have h1 : j < cs.length := by simpa using hjc
        have h2 : j < xs.length := by simpa using hjr
        simpa [coerceRow] using ih xs j h1 h2

lemma normalize_columns_ok (df : DataFrame)
    (hreq : ∀ c ∈ orderedColumns, c ∈ (renameDF df).cols) :
    normalize_columns df = .ok (normalizedOf df) := by
  unfold normalize_columns
  have hfil : orderedColumns.filter (fun c => ¬ c ∈ (renameDF df).cols) = [] := by
    rw [List.filter_eq_nil_iff]
    intro a ha
    simp [hreq a ha]
  simp only [normalize_columns, hfil, List.isEmpty_nil, if_true]
  rfl

lemma normalize_columns_error (df : DataFrame)
    (hmiss : ∃ c ∈ orderedColumns, ¬ c ∈ (renameDF df).cols) :
    normalize_columns df =
      .error (.missingColumns
        (sortStr (orderedColumns.filter (fun c => ¬ c ∈ (renameDF df).cols)))) := by
  unfold normalize_columns
  obtain ⟨c, hc, hnc⟩ := hmiss
  have hne : orderedColumns.filter (fun c => ¬ c ∈ (renameDF df).cols) ≠ [] := by
    intro h
    have := List.filter_eq_nil_iff.mp h c hc
    simp [hnc] at this
  have : (orderedColumns.filter (fun c => ¬ c ∈ (renameDF df).cols)).isEmpty = false := by
    cases hl : orderedColumns.filter (fun c => ¬ c ∈ (renameDF df).cols) with
    | nil => exact absurd hl hne
    | cons a l => rfl
  simp only [this]
  rfl

lemma chunksOf_nil (n : Nat) : chunksOf n [] = [] := by
  rw [chunksOf]
  simp

lemma chunksOf_cons (n : Nat) (xs : List (List String)) (hn : n ≠ 0) (hx : xs ≠ []) :
    chunksOf n xs = xs.take n :: chunksOf n (xs.drop n) := by
  rw [chunksOf]
  rw [dif_neg (by push_neg; exact ⟨hx, hn⟩)]

lemma chunksOf_join (n : Nat) (hn : 0 < n) (xs : List (List String)) :
    (chunksOf n xs).flatten = xs := by
  have H : ∀ (m : Nat) (xs : List (List String)), xs.length ≤ m →
      (chunksOf n xs).flatten = xs := by
    intro m
    induction m with
    | zero =>
      intro xs h
      have hx : xs = [] := List.length_eq_zero.mp (Nat.le_zero.mp h)
      simp [hx, chunksOf_nil]
    | succ m ih =>
      intro xs h
      by_cases hx : xs = []
      · simp [hx, chunksOf_nil]
      · rw [chunksOf_cons n xs (Nat.pos_iff_ne_zero.mp hn) hx]
        have hlen : (xs.drop n).length ≤ m := by
          have h1 : 0 < xs.length := List.length_pos.mpr hx
          simp only [List.length_drop]
          omega
        rw [List.flatten_cons, ih (xs.drop n) hlen]
        exact List.take_append_drop n xs
  exact H xs.length xs le_rfl

lemma flatten_map_map {α β : Type} (f : α → β) : ∀ (L : List (List α)),
    (L.map (List.map f)).flatten = (L.flatten).map f := by
  intro L
  induction L with
  | nil => rfl
  | cons a l ih =>
    rw [List.map_cons, List.flatten_cons, List.flatten_cons, List.map_append, ih]

lemma sum_map_length {α : Type} (L : List (List α)) :
    (L.map List.length).sum = L.flatten.length := by
  induction L with
  | nil => rfl
  | cons a l ih =>
    rw [List.map_cons, List.sum_cons, List.flatten_cons, List.length_append, ih]

lemma normalizedOf_rows_length (df : DataFrame) :
    (normalizedOf df).rows.length = df.rows.length := by
  simp [normalizedOf, selectDF, renameDF]

lemma coerceRows_normalizedOf (pt pn : String → Option Int) (df : DataFrame) :
    coerceRows pt pn (normalizedOf df) = df.rows.map (fileRowRecord pt pn df.cols) := by
  simp [coerceRows, normalizedOf, selectDF, fileRowRecord, renameDF, List.map_map,
    Function.comp]

lemma coerceRows_length (pt pn : String → Option Int) (df : DataFrame) :
    (coerceRows pt pn df).length = df.rows.length := by
  simp [coerceRows]

lemma processChunks_ok (pt pn : String → Option Int) :
    ∀ (chunks : List DataFrame) (sc : List RowRecord) (scm si t : Nat),
    (∀ df ∈ chunks, ∀ c ∈ orderedColumns, c ∈ (renameDF df).cols) →
    processChunks pt pn chunks ⟨sc, [], scm, si⟩ t =
      (.ok (t + (chunks.map (fun df => df.rows.length)).sum),
       ⟨sc ++ (chunks.map (fun df => coerceRows pt pn (normalizedOf df))).flatten,
        [],
        scm + (chunks.filter (fun df => !df.rows.isEmpty)).length,
        si + (chunks.filter (fun df => !df.rows.isEmpty)).length⟩) := by
  intro chunks
  induction chunks with
  | nil =>
    intro sc scm si t _
    simp [processChunks]
  | cons df rest ih =>
    intro sc scm si t hreq
    have h1 : ∀ c ∈ orderedColumns, c ∈ (renameDF df).cols := hreq df (by simp)
    have hrest : ∀ d ∈ rest, ∀ c ∈ orderedColumns, c ∈ (renameDF d).cols :=
      fun d hd => hreq d (by simp [hd])
    have hnorm := normalize_columns_ok df h1
    have hlen : (coerceRows pt pn (normalizedOf df)).length = df.rows.length := by
      rw [coerceRows_length, normalizedOf_rows_length]
    by_cases hrows : df.rows = []
    · have hcr : coerceRows pt pn (normalizedOf df) = [] := by
        simp [coerceRows, normalizedOf, selectDF, renameDF, hrows]
      have hre : df.rows.isEmpty = true := by simp [hrows]
      simp only [processChunks, hnorm, hcr, List.isEmpty_nil, if_true]
      rw [ih sc scm si t hrest]
      simp [hrows, hcr, hre]
    · have hre : df.rows.isEmpty = false := by
        cases hr2 : df.rows with
        | nil => exact absurd hr2 hrows
        | cons a l => rfl
      have hne : (coerceRows pt pn (normalizedOf df)).isEmpty = false := by
        cases hl : coerceRows pt pn (normalizedOf df) with
        | nil =>
          exfalso
          apply hrows
          have h0 := hlen
          rw [hl] at h0
          exact List.length_eq_zero.mp h0.symm
        | cons a l => rfl
      simp only [processChunks, hnorm, hne, Bool.false_eq_true, if_false]
      rw [List.nil_append]
      rw [ih (sc ++ coerceRows pt pn (normalizedOf df)) (scm + 1) (si + 1)
        (t + (coerceRows pt pn (normalizedOf df)).length) hrest]
      simp only [List.map_cons, List.sum_cons, List.flatten_cons, List.filter_cons, hre,
        Bool.not_false, if_true, List.length_cons, Prod.mk.injEq, Except.ok.injEq,
        Session.mk.injEq, List.append_assoc, hlen]
      exact ⟨by omega, trivial, trivial, by omega, by omega⟩

lemma readCSVChunks_req (csv : CSV) (n : Nat)
    (hreq : ∀ c ∈ orderedColumns, c ∈ csv.header.map renameCol) :
    ∀ df ∈ readCSVChunks csv n, ∀ c ∈ orderedColumns, c ∈ (renameDF df).cols := by
  intro df hdf c hc
  simp only [readCSVChunks, List.mem_map] at hdf
  obtain ⟨rs, _, rfl⟩ := hdf
  simpa [renameDF] using hreq c hc

lemma filter_rows_mk (h : List String) : ∀ (L : List (List (List String))),
    ((L.map (fun rs => DataFrame.mk h rs)).filter (fun df => !df.rows.isEmpty)).length =
      (L.filter (fun rs => !rs.isEmpty)).length := by
  intro L
  induction L with
  | nil => rfl
  | cons a l ih =>
    cases ha : a.isEmpty with
    | true => simp [List.filter_cons, ha, ih]
    | false => simp [List.filter_cons, ha, ih]

lemma sum_rows_mk (h : List String) (L : List (List (List String))) :
    ((L.map (fun rs => DataFrame.mk h rs)).map (fun df => df.rows.length)).sum =
      (L.map List.length).sum := by
  rw [List.map_map]
  rfl

lemma records_rows_mk (pt pn : String → Option Int) (h : List String)
    (L : List (List (List String))) :
    ((L.map (fun rs => DataFrame.mk h rs)).map
        (fun df => coerceRows pt pn (normalizedOf df))).flatten =
      (L.flatten).map (fileRowRecord pt pn h) := by
  rw [List.map_map]
  have hcomp : ((fun df => coerceRows pt pn (normalizedOf df)) ∘
      (fun rs => DataFrame.mk h rs)) = fun rs => rs.map (fileRowRecord pt pn h) := by
    funext rs
    have := coerceRows_normalizedOf pt pn (DataFrame.mk h rs)
    simpa using this
  rw [hcomp, ← flatten_map_map]

lemma insert_csv_ok (env : Option String) (pt pn : String → Option Int) (csv : CSV)
    (db_url : Option String) (u : String) (n : Nat)
    (hu : resolveDbUrl env db_url = .ok u) (hn : 0 < n)
    (hreq : ∀ c ∈ orderedColumns, c ∈ csv.header.map renameCol) :
    insert_csv_to_database env pt pn csv db_url n =
      (.ok csv.data.length,
       ⟨csv.data.map (fileRowRecord pt pn csv.header), [],
        nonemptyChunkCount csv n, nonemptyChunkCount csv n⟩) := by
  unfold insert_csv_to_database
  rw [hu]
  have hall := readCSVChunks_req csv n hreq
  have htot : ((readCSVChunks csv n).map (fun df => df.rows.length)).sum =
      csv.data.length := by
    unfold readCSVChunks
    rw [sum_rows_mk, sum_map_length, chunksOf_join n hn]
  have hcom : ((readCSVChunks csv n).map
      (fun df => coerceRows pt pn (normalizedOf df))).flatten =
      csv.data.map (fileRowRecord pt pn csv.header) := by
    unfold readCSVChunks
    rw [records_rows_mk, chunksOf_join n hn]
  have hcnt : ((readCSVChunks csv n).filter (fun df => !df.rows.isEmpty)).length =
      nonemptyChunkCount csv n := by
    unfold readCSVChunks nonemptyChunkCount
    rw [filter_rows_mk]
  rw [show emptySession = Session.mk [] [] 0 0 from rfl]
  rw [processChunks_ok pt pn (readCSVChunks csv n) [] 0 0 0 hall]
  rw [htot, hcom, hcnt]
  simp

lemma renameCol_csvRequired : csvRequiredColumns.map renameCol = orderedColumns := by
  decide

lemma renameCol_getD (j : Nat) (hj : j < 16) :
    renameCol (csvRequiredColumns.getD j "") = orderedColumns.getD j "" := by
  interval_cases j <;> rfl

lemma required_cols_renamed (header : List String)
    (hreq : ∀ c ∈ csvRequiredColumns, c ∈ header) :
    ∀ c ∈ orderedColumns, c ∈ header.map renameCol := by
  intro c hc
  rw [← renameCol_csvRequired] at hc
  obtain ⟨a, ha, rfl⟩ := List.mem_map.mp hc
  exact List.mem_map_of_mem renameCol (hreq a ha)

lemma coerceRows_row (pt pn : String → Option Int) (df : DataFrame) (i : Nat)
    (hi : i < df.rows.length) :
    (coerceRows pt pn df).getD i [] = coerceRow pt pn df.cols (df.rows.getD i []) := by
  unfold coerceRows
  rw [List.getD_eq_getElem _ _ (by simpa using hi), List.getElem_map,
    List.getD_eq_getElem _ _ hi]

lemma orderedColumns_getD_axis (j : Nat) (h1 : 1 ≤ j) (h14 : j ≤ 14) :
    orderedColumns.getD j "" = "axis_" ++ toString j := by
  interval_cases j <;> rfl

lemma coerceCell_axis (pt pn : String → Option Int) (j : Nat) (h1 : 1 ≤ j)
    (h14 : j ≤ 14) (c : String) :
    coerceCell pt pn ("axis_" ++ toString j) c = .num (pn c) := by
  interval_cases j <;> rfl

lemma coerceRows_getD_axis (pt pn : String → Option Int) (df : DataFrame)
    (hcols : df.cols = orderedColumns) (i : Nat) (hi : i < df.rows.length)
    (hlen : (df.rows.getD i []).length = 16) (j : Nat) (h1 : 1 ≤ j) (h14 : j ≤ 14) :
    ((coerceRows pt pn df).getD i []).getD j ("", .str "") =
      ("axis_" ++ toString j, .num (pn ((df.rows.getD i []).getD j ""))) := by
  rw [coerceRows_row pt pn df i hi, hcols]
  have hjc : j < orderedColumns.length := by
    have h16 : orderedColumns.length = 16 := by decide
    omega
  have hjr : j < (df.rows.getD i []).length := by omega
  rw [coerceRow_getD pt pn orderedColumns _ j hjc hjr]
  rw [orderedColumns_getD_axis j h1 h14, coerceCell_axis pt pn j h1 h14]

lemma coerceRows_getD_time (pt pn : String → Option Int) (df : DataFrame)
    (hcols : df.cols = orderedColumns) (i : Nat) (hi : i < df.rows.length)
    (hlen : (df.rows.getD i []).length = 16) :
    ((coerceRows pt pn df).getD i []).getD 15 ("", .str "") =
      ("recorded_at", .time (pt ((df.rows.getD i []).getD 15 ""))) := by
  rw [coerceRows_row pt pn df i hi, hcols]
  rw [coerceRow_getD pt pn orderedColumns _ 15 (by decide) (by omega)]
  rfl

lemma getD_mem_gen {α : Type} {l : List α} {j : Nat} (hj : j < l.length) (d : α) :
    l.getD j d ∈ l := by
  rw [List.getD_eq_getElem l d hj]
  exact List.getElem_mem hj

lemma lookup_getD_fst : ∀ (l : RowRecord) (j : Nat), j < l.length →
    (l.map Prod.fst).Nodup →
    l.lookup (l.getD j ("", .str "")).1 = some (l.getD j ("", .str "")).2 := by
  intro l
  induction l with
  | nil => intro j hj _; simp at hj
  | cons p ps ih =>
    intro j hj hnd
    cases j with
    | zero => simp [List.lookup]
    | succ j =>
      have hj' : j < ps.length := by simpa using hj
      have hmem : ps.getD j ("", .str "") ∈ ps := getD_mem_gen hj' _
      have hkey : p.1 ≠ (ps.getD j ("", .str "")).1 := by
        intro h
        have hm : (ps.getD j ("", .str "")).1 ∈ ps.map Prod.fst :=
          List.mem_map_of_mem Prod.fst hmem
        rw [← h] at hm
        exact (List.nodup_cons.mp (by simpa using hnd)).1 hm
      have hne : ((ps.getD j ("", .str "")).1 == p.1) = false := by
        rw [beq_eq_false_iff_ne]
        exact fun h => hkey h.symm
      simp only [List.getD_cons_succ, List.lookup, hne]
      exact ih j hj' (List.nodup_cons.mp (by simpa using hnd)).2

lemma sum_filter_nonempty : ∀ (L : List DataFrame),
    ((L.filter (fun d => !d.rows.isEmpty)).map (fun d => d.rows.length)).sum =
      (L.map (fun d => d.rows.length)).sum := by
  intro L
  induction L with
  | nil => rfl
  | cons a l ih =>
    cases ha : a.rows.isEmpty with
    | true =>
      have hz : a.rows.length = 0 := by
        cases hr : a.rows with
        | nil => rfl
        | cons x xs => rw [hr] at ha; simp at ha
      simp [List.filter_cons, ha, ih, hz]
    | false => simp [List.filter_cons, ha, ih]

lemma orderedColumns_nodup : orderedColumns.Nodup := by decide

lemma renameCol_internal : orderedColumns.map renameCol = orderedColumns := by decide

lemma normalizedOf_row (df : DataFrame) (i : Nat) (hi : i < df.rows.length) :
    (normalizedOf df).rows.getD i [] =
      selectRow (df.cols.map renameCol) orderedColumns (df.rows.getD i []) := by
  unfold normalizedOf selectDF renameDF
  rw [List.getD_eq_getElem _ _ (by simpa using hi), List.getElem_map,
    List.getD_eq_getElem _ _ hi]

lemma normalizedOf_row_len (df : DataFrame) (i : Nat) (hi : i < df.rows.length) :
    ((normalizedOf df).rows.getD i []).length = 16 := by
  rw [normalizedOf_row df i hi, selectRow_length]
  decide

lemma normalizedOf_cell (df : DataFrame) (hnd : (df.cols.map renameCol).Nodup)
    (hreq : ∀ c ∈ csvRequiredColumns, c ∈ df.cols) (i j : Nat)
    (hi : i < df.rows.length) (hj : j < 16) :
    ((normalizedOf df).rows.getD i []).getD j "" =
      getCellIdx df.cols (csvRequiredColumns.getD j "") (df.rows.getD i []) := by
  have hj' : j < orderedColumns.length := by
    have h16 : orderedColumns.length = 16 := by decide
    omega
  rw [normalizedOf_row df i hi, selectRow_getD _ _ _ j hj']
  have hjreq : j < csvRequiredColumns.length := by
    have h16 : csvRequiredColumns.length = 16 := by decide
    omega
  have ha : csvRequiredColumns.getD j "" ∈ df.cols := hreq _ (getD_mem_gen hjreq "")
  unfold getCellIdx
  rw [← renameCol_getD j hj, firstIdx_map renameCol _ df.cols ha hnd]

/-- C1: for every CSV file whose header contains all 16 required columns,
`insert_csv_to_database` returns a total equal to the number of data rows of
the file; a chunk that coerces to zero rows contributes zero to the total,
triggers no insert and no commit, and processing continues with the next
chunk. -/
theorem insert_csv_total_correct (env : Option String) (pt pn : String → Option Int)
    (csv : CSV) (db_url : Option String) (u : String) (n : Nat)
    (hu : resolveDbUrl env db_url = .ok u) (hn : 0 < n)
    (hreq : ∀ c ∈ csvRequiredColumns, c ∈ csv.header) :
    (insert_csv_to_database env pt pn csv db_url n).1 = .ok csv.data.length ∧
    (∀ (chunk : DataFrame) (rest : List DataFrame) (s : Session) (t : Nat),
      (∀ c ∈ orderedColumns, c ∈ (renameDF chunk).cols) →
      coerceRows pt pn (normalizedOf chunk) = [] →
      processChunks pt pn (chunk :: rest) s t = processChunks pt pn rest s t) := by
  constructor
  · rw [insert_csv_ok env pt pn csv db_url u n hu hn
      (required_cols_renamed csv.header hreq)]
  · intro chunk rest s t hchunk hzero
    simp only [processChunks, normalize_columns_ok chunk hchunk, hzero,
      List.isEmpty_nil, if_true]

/-- Witness for C1: a one-row CSV with exactly the required external header,
loaded with chunk size 2 over an explicit connection string, returns 1. -/
theorem insert_csv_total_correct_witness :
    resolveDbUrl none (some "postgresql://example") = .ok "postgresql://example" ∧
    0 < 2 ∧
    (∀ c ∈ csvRequiredColumns, c ∈ csvRequiredColumns) ∧
    (insert_csv_to_database none (fun _ => none) (fun _ => none)
        (CSV.mk csvRequiredColumns [List.replicate 16 "1.5"])
        (some "postgresql://example") 2).1 = .ok 1 :=
  ⟨rfl, by decide, fun _ hc => hc,
    (insert_csv_total_correct none (fun _ => none) (fun _ => none)
      (CSV.mk csvRequiredColumns [List.replicate 16 "1.5"])
      (some "postgresql://example") "postgresql://example" 2 rfl (by decide)
      (fun _ hc => hc)).1⟩

/-- C2: a chunk that, after renaming, lacks at least one of the 16 required
internal columns makes `_normalize_columns` raise a validation error listing
every missing required column, and the whole load fails before any row is
inserted (the session stays empty). -/
theorem missing_columns_enumerated (pt pn : String → Option Int)
    (env db_url : Option String) (u : String) (n : Nat) (df : DataFrame)
    (hmiss : ∃ c ∈ orderedColumns, ¬ c ∈ (renameDF df).cols) :
    normalize_columns df = .error (.missingColumns
      (sortStr (orderedColumns.filter (fun c => ¬ c ∈ (renameDF df).cols)))) ∧
    (∀ c, c ∈ sortStr (orderedColumns.filter (fun c => ¬ c ∈ (renameDF df).cols)) ↔
      (c ∈ orderedColumns ∧ ¬ c ∈ (renameDF df).cols)) ∧
    (∀ (csv : CSV), csv.header = df.cols → csv.data ≠ [] → 0 < n →
      resolveDbUrl env db_url = .ok u →
      insert_csv_to_database env pt pn csv db_url n =
        (.error (.missingColumns
          (sortStr (orderedColumns.filter (fun c => ¬ c ∈ (renameDF df).cols)))),
         emptySession)) := by
  refine ⟨normalize_columns_error df hmiss, ?_, ?_⟩
  · intro c
    simp [mem_sortStr, List.mem_filter]
  · intro csv hheader hdata hn hurl
    unfold insert_csv_to_database
    rw [hurl]
    unfold readCSVChunks
    rw [chunksOf_cons n csv.data (Nat.pos_iff_ne_zero.mp hn) hdata]
    simp only [List.map_cons]
    have hc : (renameDF (DataFrame.mk csv.header (csv.data.take n))).cols =
        (renameDF df).cols := by
      simp [renameDF, hheader]
    have hmiss' : ∃ c ∈ orderedColumns,
        ¬ c ∈ (renameDF (DataFrame.mk csv.header (csv.data.take n))).cols := by
      rw [hc]
      exact hmiss
    have hfail := normalize_columns_error _ hmiss'
    simp only [hc] at hfail
    simp only [processChunks, hfail]

/-- Witness for C2: a chunk whose only column is `Trait` fails validation,
the error lists all 15 missing internal columns in sorted order, and a
one-row load with that header inserts nothing. -/
theorem missing_columns_enumerated_witness :
    (∃ c ∈ orderedColumns, ¬ c ∈ (renameDF (DataFrame.mk ["Trait"] [])).cols) ∧
    sortStr (orderedColumns.filter
        (fun c => ¬ c ∈ (renameDF (DataFrame.mk ["Trait"] [])).cols)) =
      ["axis_1", "axis_10", "axis_11", "axis_12", "axis_13", "axis_14", "axis_2",
       "axis_3", "axis_4", "axis_5", "axis_6", "axis_7", "axis_8", "axis_9",
       "recorded_at"] ∧
    insert_csv_to_database none (fun _ => none) (fun _ => none)
        (CSV.mk ["Trait"] [["x"]]) (some "postgresql://example") 1 =
      (.error (.missingColumns
        ["axis_1", "axis_10", "axis_11", "axis_12", "axis_13", "axis_14", "axis_2",
         "axis_3", "axis_4", "axis_5", "axis_6", "axis_7", "axis_8", "axis_9",
         "recorded_at"]), emptySession) := by
  refine ⟨by decide, by decide, ?_⟩
  have h := (missing_columns_enumerated (fun _ => none) (fun _ => none) none
    (some "postgresql://example") "postgresql://example" 1
    (DataFrame.mk ["Trait"] []) (by decide)).2.2
    (CSV.mk ["Trait"] [["x"]]) rfl (by decide) (by decide) rfl
  rw [h]
  rfl

/-- C3: in a normalized chunk, an axis cell whose content the numeric parser
rejects is mapped to null (the coercion is a total function, so nothing is
raised), while the containing row stays in the output with every parseable
axis value intact. -/
theorem axis_coercion_null_preserves_row (pt pn : String → Option Int)
    (df : DataFrame) (hcols : df.cols = orderedColumns) (i : Nat)
    (hi : i < df.rows.length) (hlen : (df.rows.getD i []).length = 16)
    (j : Nat) (h1 : 1 ≤ j) (h14 : j ≤ 14)
    (hbad : pn ((df.rows.getD i []).getD j "") = none) :
    (coerceRows pt pn df).length = df.rows.length ∧
    ((coerceRows pt pn df).getD i []).getD j ("", .str "") =
      ("axis_" ++ toString j, .num none) ∧
    (∀ k, 1 ≤ k → k ≤ 14 → ∀ v : Int,
      pn ((df.rows.getD i []).getD k "") = some v →
      ((coerceRows pt pn df).getD i []).getD k ("", .str "") =
        ("axis_" ++ toString k, .num (some v))) := by
  refine ⟨coerceRows_length pt pn df, ?_, ?_⟩
  · rw [coerceRows_getD_axis pt pn df hcols i hi hlen j h1 h14, hbad]
  · intro k hk1 hk14 v hv
    rw [coerceRows_getD_axis pt pn df hcols i hi hlen k hk1 hk14, hv]

/-- Witness for C3: with a parser that accepts only `"7"`, the unparseable
cell in `axis_1` becomes null while the parseable `axis_2` cell keeps its
value, in the same surviving row. -/
theorem axis_coercion_null_preserves_row_witness :
    (DataFrame.mk orderedColumns [["t", "oops", "7", "7", "7", "7", "7", "7", "7",
        "7", "7", "7", "7", "7", "7", "now"]]).cols = orderedColumns ∧
    ((fun c => if c = "7" then some (7 : Int) else none) "oops" = none) ∧
    ((coerceRows (fun _ => none) (fun c => if c = "7" then some (7 : Int) else none)
        (DataFrame.mk orderedColumns [["t", "oops", "7", "7", "7", "7", "7", "7", "7",
          "7", "7", "7", "7", "7", "7", "now"]])).getD 0 []).getD 1 ("", .str "") =
      ("axis_1", .num none) := by
  refine ⟨rfl, by decide, ?_⟩
  exact (axis_coercion_null_preserves_row (fun _ => none)
    (fun c => if c = "7" then some (7 : Int) else none)
    (DataFrame.mk orderedColumns [["t", "oops", "7", "7", "7", "7", "7", "7", "7",
      "7", "7", "7", "7", "7", "7", "now"]]) rfl 0 (by decide) (by decide)
    1 (by decide) (by decide) (by decide)).2.1

/-- C4: with all required columns present, the total returned by the loader
and the full sequence of committed row dicts are the same for any two
positive chunk sizes, and the total is the file's data row count — chunking
neither drops nor duplicates rows. -/
theorem chunking_preserves_total (env : Option String) (pt pn : String → Option Int)
    (csv : CSV) (db_url : Option String) (u : String) (n1 n2 : Nat)
    (hu : resolveDbUrl env db_url = .ok u) (h1 : 0 < n1) (h2 : 0 < n2)
    (hreq : ∀ c ∈ csvRequiredColumns, c ∈ csv.header) :
    (insert_csv_to_database env pt pn csv db_url n1).1 =
      (insert_csv_to_database env pt pn csv db_url n2).1 ∧
    (insert_csv_to_database env pt pn csv db_url n1).1 = .ok csv.data.length ∧
    (insert_csv_to_database env pt pn csv db_url n1).2.committed =
      (insert_csv_to_database env pt pn csv db_url n2).2.committed ∧
    (insert_csv_to_database env pt pn csv db_url n1).2.committed =
      csv.data.map (fileRowRecord pt pn csv.header) := by
  have hr := required_cols_renamed csv.header hreq
  rw [insert_csv_ok env pt pn csv db_url u n1 hu h1 hr,
    insert_csv_ok env pt pn csv db_url u n2 hu h2 hr]
  exact ⟨rfl, rfl, rfl, rfl⟩

/-- Witness for C4: a 5-row file loaded with chunk size 2 (three chunks) and
with chunk size 5 (one chunk) gives the same total, 5. -/
theorem chunking_preserves_total_witness :
    resolveDbUrl none (some "postgresql://example") = .ok "postgresql://example" ∧
    0 < 2 ∧ 0 < 5 ∧
    (insert_csv_to_database none (fun _ => none) (fun _ => none)
        (CSV.mk csvRequiredColumns (List.replicate 5 (List.replicate 16 "1")))
        (some "postgresql://example") 2).1 =
      (insert_csv_to_database none (fun _ => none) (fun _ => none)
        (CSV.mk csvRequiredColumns (List.replicate 5 (List.replicate 16 "1")))
        (some "postgresql://example") 5).1 ∧
    (insert_csv_to_database none (fun _ => none) (fun _ => none)
        (CSV.mk csvRequiredColumns (List.replicate 5 (List.replicate 16 "1")))
        (some "postgresql://example") 2).1 = .ok 5 := by
  have h := chunking_preserves_total none (fun _ => none) (fun _ => none)
    (CSV.mk csvRequiredColumns (List.replicate 5 (List.replicate 16 "1")))
    (some "postgresql://example") "postgresql://example" 2 5 rfl (by decide)
    (by decide) (fun _ hc => hc)
  exact ⟨rfl, by decide, by decide, h.1, h.2.1⟩

/-- C5: in a normalized chunk, an unparseable `recorded_at` cell is coerced
to null without raising, the null is present in the insert payload under the
`recorded_at` key, and under the spec's storage model (server default only
for absent fields) the stored value is null. -/
theorem recorded_at_null_present_in_payload (pt pn : String → Option Int)
    (df : DataFrame) (hcols : df.cols = orderedColumns) (i : Nat)
    (hi : i < df.rows.length) (hlen : (df.rows.getD i []).length = 16)
    (hbad : pt ((df.rows.getD i []).getD 15 "") = none) :
    ((coerceRows pt pn df).getD i []).getD 15 ("", .str "") =
      ("recorded_at", .time none) ∧
    ((coerceRows pt pn df).getD i []).lookup "recorded_at" = some (.time none) ∧
    (∀ now : Int, storedRecordedAt now ((coerceRows pt pn df).getD i []) = none) := by
  have hpos := coerceRows_getD_time pt pn df hcols i hi hlen
  rw [hbad] at hpos
  have hrl : (df.rows.getD i []).length = orderedColumns.length := by
    rw [hlen]
    decide
  have hreclen : ((coerceRows pt pn df).getD i []).length = 16 := by
    rw [coerceRows_row pt pn df i hi, hcols, coerceRow_length]
    rw [hlen]
    decide
  have hkeys : ((coerceRows pt pn df).getD i []).map Prod.fst = orderedColumns := by
    rw [coerceRows_row pt pn df i hi, hcols]
    exact coerceRow_keys pt pn orderedColumns _ hrl
  have hlk := lookup_getD_fst ((coerceRows pt pn df).getD i []) 15 (by omega)
    (by rw [hkeys]; exact orderedColumns_nodup)
  rw [hpos] at hlk
  have hl2 : ((coerceRows pt pn df).getD i []).lookup "recorded_at" =
      some (Value.time none) := by simpa using hlk
  refine ⟨hpos, hl2, ?_⟩
  intro now
  unfold storedRecordedAt
  rw [hl2]

/-- Witness for C5: a row whose time cell no parser accepts yields a record
whose `recorded_at` entry is present and null, and the modelled storage
keeps it null rather than applying the `now()` default. -/
theorem recorded_at_null_present_in_payload_witness :
    ((fun _ => (none : Option Int)) "bad-date" = none) ∧
    storedRecordedAt 12345
      ((coerceRows (fun _ => none) (fun _ => none)
        (DataFrame.mk orderedColumns [List.replicate 16 "bad-date"])).getD 0 []) =
      none :=
  ⟨rfl,
    (recorded_at_null_present_in_payload (fun _ => none) (fun _ => none)
      (DataFrame.mk orderedColumns [List.replicate 16 "bad-date"]) rfl 0
      (by decide) (by decide) rfl).2.2 12345⟩

/-- C6: a chunk containing all required external columns is normalized to the
same row data with columns renamed to internal names and reordered to the
canonical sequence; other columns are dropped, and the output depends only
on the cells under the required names, not on the input column order. -/
theorem normalize_columns_canonical (df : DataFrame)
    (hnd : (df.cols.map renameCol).Nodup)
    (hreq : ∀ c ∈ csvRequiredColumns, c ∈ df.cols) :
    normalize_columns df = .ok (normalizedOf df) ∧
    (normalizedOf df).cols = orderedColumns ∧
    (normalizedOf df).rows.length = df.rows.length ∧
    (∀ i j, i < df.rows.length → j < 16 →
      ((normalizedOf df).rows.getD i []).getD j "" =
        getCellIdx df.cols (csvRequiredColumns.getD j "") (df.rows.getD i [])) ∧
    (∀ (df2 : DataFrame), (df2.cols.map renameCol).Nodup →
      (∀ c ∈ csvRequiredColumns, c ∈ df2.cols) →
      df.rows.length = df2.rows.length →
      (∀ i j, i < df.rows.length → j < 16 →
        getCellIdx df.cols (csvRequiredColumns.getD j "") (df.rows.getD i []) =
          getCellIdx df2.cols (csvRequiredColumns.getD j "") (df2.rows.getD i [])) →
      normalize_columns df = normalize_columns df2) := by
  have hr1 : ∀ c ∈ orderedColumns, c ∈ (renameDF df).cols :=
    fun c hc => required_cols_renamed df.cols hreq c hc
  refine ⟨normalize_columns_ok df hr1, rfl, normalizedOf_rows_length df, ?_, ?_⟩
  · intro i j hi hj
    exact normalizedOf_cell df hnd hreq i j hi hj
  · intro df2 hnd2 hreq2 hlen hcells
    have hr2 : ∀ c ∈ orderedColumns, c ∈ (renameDF df2).cols :=
      fun c hc => required_cols_renamed df2.cols hreq2 c hc
    have hrows : (normalizedOf df).rows = (normalizedOf df2).rows := by
      apply List.ext_getElem
      · rw [normalizedOf_rows_length, normalizedOf_rows_length, hlen]
      · intro k hk1 hk2
        have hkd : k < df.rows.length := by rwa [normalizedOf_rows_length] at hk1
        have hkd2 : k < df2.rows.length := by rwa [normalizedOf_rows_length] at hk2
        rw [← List.getD_eq_getElem ((normalizedOf df).rows) [] hk1,
          ← List.getD_eq_getElem ((normalizedOf df2).rows) [] hk2]
        apply List.ext_getElem
        · rw [normalizedOf_row_len df k hkd, normalizedOf_row_len df2 k hkd2]
        · intro j hj1 hj2
          have hj : j < 16 := by rwa [normalizedOf_row_len df k hkd] at hj1
          rw [← List.getD_eq_getElem _ "" hj1, ← List.getD_eq_getElem _ "" hj2]
          rw [normalizedOf_cell df hnd hreq k j hkd hj,
            normalizedOf_cell df2 hnd2 hreq2 k j hkd2 hj]
          exact hcells k j hkd hj
    have heq : normalizedOf df = normalizedOf df2 := by
      have e1 : normalizedOf df = DataFrame.mk orderedColumns (normalizedOf df).rows := rfl
      have e2 : normalizedOf df2 = DataFrame.mk orderedColumns (normalizedOf df2).rows := rfl
      rw [e1, e2, hrows]
    rw [normalize_columns_ok df hr1, normalize_columns_ok df2 hr2, heq]

/-- Witness for C6: a chunk with the required columns listed in a shuffled
order (`Time` first) normalizes to the canonical column sequence with the
cells moved accordingly. -/
theorem normalize_columns_canonical_witness :
    ((["Time", "Trait", "Axis #1", "Axis #2", "Axis #3", "Axis #4", "Axis #5",
        "Axis #6", "Axis #7", "Axis #8", "Axis #9", "Axis #10", "Axis #11",
        "Axis #12", "Axis #13", "Axis #14"].map renameCol).Nodup) ∧
    (∀ c ∈ csvRequiredColumns,
      c ∈ ["Time", "Trait", "Axis #1", "Axis #2", "Axis #3", "Axis #4", "Axis #5",
        "Axis #6", "Axis #7", "Axis #8", "Axis #9", "Axis #10", "Axis #11",
        "Axis #12", "Axis #13", "Axis #14"]) ∧
    normalize_columns (DataFrame.mk
        ["Time", "Trait", "Axis #1", "Axis #2", "Axis #3", "Axis #4", "Axis #5",
         "Axis #6", "Axis #7", "Axis #8", "Axis #9", "Axis #10", "Axis #11",
         "Axis #12", "Axis #13", "Axis #14"]
        [["2024", "temp", "1", "2", "3", "4", "5", "6", "7", "8", "9", "10",
          "11", "12", "13", "14"]]) =
      .ok (normalizedOf (DataFrame.mk
        ["Time", "Trait", "Axis #1", "Axis #2", "Axis #3", "Axis #4", "Axis #5",
         "Axis #6", "Axis #7", "Axis #8", "Axis #9", "Axis #10", "Axis #11",
         "Axis #12", "Axis #13", "Axis #14"]
        [["2024", "temp", "1", "2", "3", "4", "5", "6", "7", "8", "9", "10",
          "11", "12", "13", "14"]])) ∧
    normalizedOf (DataFrame.mk
        ["Time", "Trait", "Axis #1", "Axis #2", "Axis #3", "Axis #4", "Axis #5",
         "Axis #6", "Axis #7", "Axis #8", "Axis #9", "Axis #10", "Axis #11",
         "Axis #12", "Axis #13", "Axis #14"]
        [["2024", "temp", "1", "2", "3", "4", "5", "6", "7", "8", "9", "10",
          "11", "12", "13", "14"]]) =
      DataFrame.mk orderedColumns
        [["temp", "1", "2", "3", "4", "5", "6", "7", "8", "9", "10", "11", "12",
          "13", "14", "2024"]] := by
  refine ⟨by decide, by decide, ?_, by rfl⟩
  exact (normalize_columns_canonical (DataFrame.mk
    ["Time", "Trait", "Axis #1", "Axis #2", "Axis #3", "Axis #4", "Axis #5",
     "Axis #6", "Axis #7", "Axis #8", "Axis #9", "Axis #10", "Axis #11",
     "Axis #12", "Axis #13", "Axis #14"]
    [["2024", "temp", "1", "2", "3", "4", "5", "6", "7", "8", "9", "10",
      "11", "12", "13", "14"]]) (by decide) (by decide)).1

/-- C7: with `db_url` not supplied, both public functions read the connection
string from the environment at call time; an unset or blank (empty after
stripping) value raises the configuration error immediately, with nothing
inserted or read, while a nonblank value is used as the connection string. -/
theorem db_url_from_env_fail_fast (env env2 : Option String)
    (pt pn : String → Option Int) (csv : CSV) (stored : List RowRecord) (n : Nat)
    (hblank : (pyStrip (env.getD "")).isEmpty = true)
    (hgood : (pyStrip (env2.getD "")).isEmpty = false) :
    insert_csv_to_database env pt pn csv none n = (.error .configError, emptySession) ∧
    get_data_from_database env stored none = .error .configError ∧
    resolveDbUrl env2 none = .ok (pyStrip (env2.getD "")) ∧
    get_data_from_database env2 stored none = .ok stored := by
  have h1 : resolveDbUrl env none = .error .configError := by
    simp [resolveDbUrl, isFalsy, get_database_url, hblank]
  have h2 : resolveDbUrl env2 none = .ok (pyStrip (env2.getD "")) := by
    simp [resolveDbUrl, isFalsy, get_database_url, hgood]
  refine ⟨?_, ?_, h2, ?_⟩
  · unfold insert_csv_to_database
    rw [h1]
  · unfold get_data_from_database
    rw [h1]
  · unfold get_data_from_database
    rw [h2]

/-- Witness for C7: an unset environment variable makes the load fail with
the configuration error and an untouched session, while a set one lets the
reader return its rows. -/
theorem db_url_from_env_fail_fast_witness :
    (pyStrip ((none : Option String).getD "")).isEmpty = true ∧
    (pyStrip ((some "postgresql://db" : Option String).getD "")).isEmpty = false ∧
    insert_csv_to_database none (fun _ => none) (fun _ => none)
        (CSV.mk csvRequiredColumns [List.replicate 16 "1"]) none 2 =
      (.error .configError, emptySession) ∧
    get_data_from_database (some "postgresql://db") [] none = .ok [] := by
  have h := db_url_from_env_fail_fast none (some "postgresql://db") (fun _ => none)
    (fun _ => none) (CSV.mk csvRequiredColumns [List.replicate 16 "1"]) [] 2
    (by decide) (by decide)
  exact ⟨by decide, by decide, h.1, h.2.2.2⟩

/-- C8: validation happens only after renaming, so a chunk whose headers are
already the internal names (which contain none of the required external
names) passes validation unchanged and such a file is loaded in full. -/
theorem internal_headers_pass_validation (pt pn : String → Option Int)
    (env db_url : Option String) (u : String) (n : Nat) (df : DataFrame)
    (hcols : df.cols = orderedColumns) :
    (∀ c ∈ csvRequiredColumns, ¬ c ∈ df.cols) ∧
    normalize_columns df = .ok (normalizedOf df) ∧
    (∀ (csv : CSV), csv.header = orderedColumns →
      resolveDbUrl env db_url = .ok u → 0 < n →
      (insert_csv_to_database env pt pn csv db_url n).1 = .ok csv.data.length) := by
  refine ⟨?_, ?_, ?_⟩
  · rw [hcols]
    decide
  · apply normalize_columns_ok
    intro c hc
    show c ∈ df.cols.map renameCol
    rw [hcols, renameCol_internal]
    exact hc
  · intro csv hheader hurl hn
    have hreq : ∀ c ∈ orderedColumns, c ∈ csv.header.map renameCol := by
      intro c hc
      rw [hheader, renameCol_internal]
      exact hc
    rw [insert_csv_ok env pt pn csv db_url u n hurl hn hreq]

/-- Witness for C8: a one-row file whose header is already
`trait, axis_1..axis_14, recorded_at` loads successfully and returns 1. -/
theorem internal_headers_pass_validation_witness :
    (DataFrame.mk orderedColumns []).cols = orderedColumns ∧
    normalize_columns (DataFrame.mk orderedColumns []) =
      .ok (normalizedOf (DataFrame.mk orderedColumns [])) ∧
    (insert_csv_to_database none (fun _ => none) (fun _ => none)
        (CSV.mk orderedColumns [List.replicate 16 "x"])
        (some "postgresql://example") 3).1 = .ok 1 := by
  have h := internal_headers_pass_validation (fun _ => none) (fun _ => none) none
    (some "postgresql://example") "postgresql://example" 3
    (DataFrame.mk orderedColumns []) rfl
  exact ⟨rfl, h.2.1,
    h.2.2 (CSV.mk orderedColumns [List.replicate 16 "x"]) rfl rfl (by decide)⟩

/-- C9: both public functions test `db_url` for truthiness, so an explicitly
supplied empty string behaves exactly like an absent argument: it falls back
to the environment variable instead of being used or rejected as a blank
connection string. -/
theorem empty_db_url_falls_back_to_env (env : Option String)
    (pt pn : String → Option Int) (csv : CSV) (stored : List RowRecord) (n : Nat) :
    insert_csv_to_database env pt pn csv (some "") n =
      insert_csv_to_database env pt pn csv none n ∧
    get_data_from_database env stored (some "") =
      get_data_from_database env stored none :=
  ⟨rfl, rfl⟩

/-- C10: coercion emits exactly one record per input row, in order, each with
exactly the 16 keys `trait, axis_1..axis_14, recorded_at`; the loader's total
equals the sum of the row counts of the non-empty chunks. -/
theorem coerce_rows_shape_and_total (pt pn : String → Option Int) (df : DataFrame)
    (hcols : df.cols = orderedColumns) (hlens : ∀ r ∈ df.rows, r.length = 16) :
    (coerceRows pt pn df).length = df.rows.length ∧
    (∀ i, i < df.rows.length →
      (coerceRows pt pn df).getD i [] = coerceRow pt pn df.cols (df.rows.getD i [])) ∧
    (∀ rec ∈ coerceRows pt pn df, rec.map Prod.fst = orderedColumns ∧
      (rec.map Prod.fst).Nodup ∧ rec.length = 16) ∧
    (∀ (env db_url : Option String) (u : String) (csv : CSV) (n : Nat),
      resolveDbUrl env db_url = .ok u → 0 < n →
      (∀ c ∈ csvRequiredColumns, c ∈ csv.header) →
      (insert_csv_to_database env pt pn csv db_url n).1 =
        .ok ((((readCSVChunks csv n).filter (fun d => !d.rows.isEmpty)).map
          (fun d => d.rows.length)).sum)) := by
  refine ⟨coerceRows_length pt pn df, ?_, ?_, ?_⟩
  · intro i hi
    exact coerceRows_row pt pn df i hi
  · intro rec hrec
    have hrec' : rec ∈ df.rows.map (coerceRow pt pn df.cols) := hrec
    obtain ⟨r, hr, rfl⟩ := List.mem_map.mp hrec'
    have hrl : r.length = 16 := hlens r hr
    have hrlen : r.length = orderedColumns.length := by
      rw [hrl]
      decide
    have hkeys : (coerceRow pt pn df.cols r).map Prod.fst = orderedColumns := by
      rw [hcols]
      exact coerceRow_keys pt pn orderedColumns r hrlen
    refine ⟨hkeys, ?_, ?_⟩
    · rw [hkeys]
      exact orderedColumns_nodup
    · rw [hcols, coerceRow_length, hrl]
      decide
  · intro env db_url u csv n hurl hn hreq2
    rw [insert_csv_ok env pt pn csv db_url u n hurl hn
      (required_cols_renamed csv.header hreq2)]
    have hs := sum_filter_nonempty (readCSVChunks csv n)
    have htot : ((readCSVChunks csv n).map (fun d => d.rows.length)).sum =
        csv.data.length := by
      unfold readCSVChunks
      rw [sum_rows_mk, sum_map_length, chunksOf_join n hn]
    rw [hs, htot]

/-- Witness for C10: a one-row normalized chunk yields one record; a 3-row
file loaded in chunks of 2 returns the sum of the non-empty chunk sizes. -/
theorem coerce_rows_shape_and_total_witness :
    (DataFrame.mk orderedColumns [List.replicate 16 "z"]).cols = orderedColumns ∧
    (∀ r ∈ [List.replicate 16 "z"], r.length = 16) ∧
    (coerceRows (fun _ => none) (fun _ => none)
        (DataFrame.mk orderedColumns [List.replicate 16 "z"])).length = 1 ∧
    (insert_csv_to_database none (fun _ => none) (fun _ => none)
        (CSV.mk csvRequiredColumns (List.replicate 3 (List.replicate 16 "z")))
        (some "postgresql://example") 2).1 =
      .ok ((((readCSVChunks
          (CSV.mk csvRequiredColumns (List.replicate 3 (List.replicate 16 "z"))) 2).filter
          (fun d => !d.rows.isEmpty)).map (fun d => d.rows.length)).sum) := by
  have h := coerce_rows_shape_and_total (fun _ => none) (fun _ => none)
    (DataFrame.mk orderedColumns [List.replicate 16 "z"]) rfl (by decide)
  exact ⟨rfl, by decide, h.1,
    h.2.2.2 none (some "postgresql://example") "postgresql://example"
      (CSV.mk csvRequiredColumns (List.replicate 3 (List.replicate 16 "z"))) 2 rfl
      (by decide) (fun _ hc => hc)⟩
